import Mathlib

/-!
Verification of the aspen-wasm-plugin host runtime
(crates/aspen-wasm-plugin/src/{host,handler,scheduler,events}.rs).

Shallow embedding conventions:
* Rust `&str` / `String` become Lean `String`; byte buffers become `List Nat`
  with every element `< 256` (`u8` truncation written as `% 256`).
* Stateful async code (handler lifecycle, scheduler map, event router set)
  becomes explicit state passing; externally observable side effects
  (task aborts/spawns, guest entry-point calls, key-value store calls) are
  collected in event lists so ordering and "never invoked" facts are provable.
* External collaborators (the KV store, serde JSON parsing, UTF-8 decoding)
  are at the model boundary: a host function's interaction with the store is
  recorded as an emitted `StoreOp`; guest call outcomes and JSON parse
  outcomes are case-split over an outcome inductive mirroring the Rust match.
-/

namespace Aspen

/-- Plugin lifecycle states, as encoded in `handler.rs` (`state`/`set_state`:
0=Loading, 1=Initializing, 2=Ready, 3=Degraded, 4=Stopping, 5=Stopped,
6=Failed). -/
inductive PluginState where
  | Loading
  | Initializing
  | Ready
  | Degraded
  | Stopping
  | Stopped
  | Failed
deriving DecidableEq, Repr

-- ---------------------------------------------------------------------------
-- events.rs: NATS-style topic pattern matching
-- ---------------------------------------------------------------------------

/-- Rust `str::split('.')`: split a character list on a separator character.
`"".split('.')` yields one empty segment, as in Rust. -/
def splitOnChar (sep : Char) : List Char → List (List Char)
  | [] => [[]]
  | c :: cs =>
    let r := splitOnChar sep cs
    if c = sep then [] :: r
    else
      match r with
      | [] => [[c]]
      | h :: t => (c :: h) :: t

/-- The token-walking loop of `pattern_matches` (events.rs lines 217-238),
recursion on the pattern token list standing for the `while pi < len` loop:
`>` returns true immediately; an exhausted topic fails; a non-`*` literal
must equal the topic segment; after the loop, `ti >= topic_parts.len()`. -/
def patternMatchesTokens : List (List Char) → List (List Char) → Bool
  | [], tp => tp.isEmpty
  | p :: pr, tp =>
    if p = ['>'] then true
    else
      match tp with
      | [] => false
      | t :: tr => if p ≠ ['*'] ∧ p ≠ t then false else patternMatchesTokens pr tr

/-- `pattern_matches` (events.rs lines 213-239): split both strings on `'.'`
and walk the token lists. -/
def pattern_matches (pattern topic : String) : Bool :=
  patternMatchesTokens (splitOnChar '.' pattern.data) (splitOnChar '.' topic.data)

/-- The matching relation exactly as the specification words it: walking
tokens left to right, a `>` token immediately succeeds (matching all
remaining topic segments, including none); a `*` token matches exactly one
topic segment; any other token must equal the corresponding topic segment;
the match fails if the topic is exhausted before the pattern; if the pattern
is exhausted without a `>`, the topic must be exactly exhausted. -/
def specTokensMatch : List (List Char) → List (List Char) → Prop
  | [], ts => ts = []
  | p :: _, [] => p = ['>']
  | p :: ps, t :: ts =>
    p = ['>'] ∨
    (p = ['*'] ∧ specTokensMatch ps ts) ∨
    (p ≠ ['>'] ∧ p ≠ ['*'] ∧ p = t ∧ specTokensMatch ps ts)

-- ---------------------------------------------------------------------------
-- host.rs: capability gate
-- ---------------------------------------------------------------------------

/-- Rust `str::starts_with`: the candidate prefix's characters are a list
prefix of the string's characters. -/
def strStartsWith (s pre : String) : Bool :=
  pre.data.isPrefixOf s.data

/-- `check_permission` (host.rs lines 286-293): `Ok(())` if granted, else a
descriptive permission-denied message. -/
def check_permission (plugin_name capability : String) (granted : Bool) :
    Except String Unit :=
  if granted then .ok ()
  else .error ("permission denied: plugin \x27" ++ plugin_name ++ "\x27 lacks \x27"
      ++ capability ++ "\x27 capability")

/-- `validate_key_prefix` (host.rs lines 306-326): empty allowed set means
unrestricted; otherwise the key must start with at least one allowed prefix
(the `for` loop over `allowed_prefixes` rendered as `List.any`). The Rust
message interpolates the prefix list with `{:?}`; the model keeps the
message's identifying head and components. -/
def validate_key_prefix (plugin_name : String) (allowed_prefixes : List String)
    (key operation : String) : Except String Unit :=
  if allowed_prefixes.isEmpty then .ok ()
  else if allowed_prefixes.any (fun p => strStartsWith key p) then .ok ()
  else .error ("KV namespace violation: plugin \x27" ++ plugin_name ++ "\x27 "
      ++ operation ++ " key \x27" ++ key ++ "\x27 outside allowed prefixes")

/-- `validate_scan_prefix` (host.rs lines 332-347): the scan prefix itself
must start with one of the allowed prefixes. -/
def validate_scan_prefix (plugin_name : String) (allowed_prefixes : List String)
    (scanPfx : String) : Except String Unit :=
  if allowed_prefixes.isEmpty then .ok ()
  else if allowed_prefixes.any (fun p => strStartsWith scanPfx p) then .ok ()
  else .error ("KV namespace violation: plugin \x27" ++ plugin_name
      ++ "\x27 scan prefix \x27" ++ scanPfx ++ "\x27 outside allowed prefixes")

/-- `PluginHostContext::with_kv_prefixes` (host.rs lines 169-180): if the
declared prefix list is empty, resolve to the single default prefix
`format!("{}{}:", DEFAULT_PLUGIN_KV_PREFIX_TEMPLATE, plugin_name)`;
otherwise use the declared list unchanged. The template constant lives in
the external `aspen_constants` crate (its value `"__plugin:"` is pinned by
the doc comment at host.rs line 167 and the unit test at host.rs line 2117),
so it is passed as a parameter here. -/
def with_kv_prefixes (template plugin_name : String) (prefixes : List String) :
    List String :=
  if prefixes.isEmpty then [template ++ plugin_name ++ ":"] else prefixes

-- ---------------------------------------------------------------------------
-- host.rs: KV host functions with store-call traces
-- ---------------------------------------------------------------------------

/-- The slice of `PluginHostContext` the KV host functions read: plugin name,
allowed prefixes, and the `kv_read`/`kv_write` flags of `PluginPermissions`. -/
structure KvCtx where
  plugin_name : String
  allowed_kv_prefixes : List String
  kv_read : Bool
  kv_write : Bool
deriving DecidableEq, Repr

/-- A batch operation (`aspen_plugin_api::KvBatchOp` / `aspen_core::BatchOperation`). -/
inductive BatchOp where
  | set (key value : String)
  | del (key : String)
deriving DecidableEq, Repr

/-- A conditional-batch condition (`aspen_core::BatchCondition`). -/
inductive BatchCond where
  | valueEquals (key expected : String)
  | keyExists (key : String)
  | keyNotExists (key : String)
deriving DecidableEq, Repr

/-- An invocation of the underlying `KeyValueStore` collaborator. A host
function that never emits a `StoreOp` never invoked the store. -/
inductive StoreOp where
  | read (key : String)
  | writeSet (key value : String)
  | writeDelete (key : String)
  | writeCas (key : String) (expected : Option String) (newValue : String)
  | writeCad (key expected : String)
  | writeBatch (ops : List BatchOp)
  | writeCondBatch (conds : List BatchCond) (ops : List BatchOp)
  | scan (scanPfx : String)
deriving DecidableEq, Repr

/-- `kv_get` closure (host.rs lines 693-732): `kv_read` permission check,
then key-prefix validation, then a store read. Store-reply encoding (found /
not-found tag bytes) is external to the properties proved here, so the
success value is unit. -/
def kv_get (ctx : KvCtx) (key : String) : Except String Unit × List StoreOp :=
  match check_permission ctx.plugin_name "kv_read" ctx.kv_read with
  | .error e => (.error e, [])
  | .ok _ =>
    match validate_key_prefix ctx.plugin_name ctx.allowed_kv_prefixes key "read" with
    | .error e => (.error e, [])
    | .ok _ => (.ok (), [.read key])

/-- `kv_put` (host.rs lines 356-374): `kv_write` permission check, key-prefix
validation, then a store write. The UTF-8 decoding of the wire value happens
between validation and the write in the source; the model takes the already
decoded string (the claims proved here only exercise the earlier checks). -/
def kv_put (ctx : KvCtx) (key value : String) : Except String Unit × List StoreOp :=
  match check_permission ctx.plugin_name "kv_write" ctx.kv_write with
  | .error e => (.error e, [])
  | .ok _ =>
    match validate_key_prefix ctx.plugin_name ctx.allowed_kv_prefixes key "write" with
    | .error e => (.error e, [])
    | .ok _ => (.ok (), [.writeSet key value])

/-- `kv_delete` (host.rs lines 377-393). -/
def kv_delete (ctx : KvCtx) (key : String) : Except String Unit × List StoreOp :=
  match check_permission ctx.plugin_name "kv_write" ctx.kv_write with
  | .error e => (.error e, [])
  | .ok _ =>
    match validate_key_prefix ctx.plugin_name ctx.allowed_kv_prefixes key "delete" with
    | .error e => (.error e, [])
    | .ok _ => (.ok (), [.writeDelete key])

/-- `kv_cas` (host.rs lines 399-422): an empty `expected` buffer means
create-if-absent (`None`). -/
def kv_cas (ctx : KvCtx) (key : String) (expected : Option String)
    (new_value : String) : Except String Unit × List StoreOp :=
  match check_permission ctx.plugin_name "kv_write" ctx.kv_write with
  | .error e => (.error e, [])
  | .ok _ =>
    match validate_key_prefix ctx.plugin_name ctx.allowed_kv_prefixes key "cas" with
    | .error e => (.error e, [])
    | .ok _ => (.ok (), [.writeCas key expected new_value])

/-- `kv_scan` closure (host.rs lines 761-815): `kv_read` permission check,
then scan-prefix validation, then a store scan. -/
def kv_scan (ctx : KvCtx) (scanPfx : String) : Except String Unit × List StoreOp :=
  match check_permission ctx.plugin_name "kv_read" ctx.kv_read with
  | .error e => (.error e, [])
  | .ok _ =>
    match validate_scan_prefix ctx.plugin_name ctx.allowed_kv_prefixes scanPfx with
    | .error e => (.error e, [])
    | .ok _ => (.ok (), [.scan scanPfx])

/-- The key and operation label `kv_batch` validates for each op
(host.rs lines 441-447). -/
def batchOpKeyOperation : BatchOp → String × String
  | .set key _ => (key, "batch-set")
  | .del key => (key, "batch-delete")

/-- The all-keys-up-front validation loop of `kv_batch`: the first failing
key's error, or success. -/
def validateBatchKeys (ctx : KvCtx) : List BatchOp → Except String Unit
  | [] => .ok ()
  | op :: rest =>
    let ko := batchOpKeyOperation op
    match validate_key_prefix ctx.plugin_name ctx.allowed_kv_prefixes ko.1 ko.2 with
    | .error e => .error e
    | .ok _ => validateBatchKeys ctx rest

/-- `kv_batch` (host.rs lines 431-473): `kv_write` permission check, JSON
batch parsing (external; the model takes the parsed op list), empty batch
short-circuit, validation of every key before any operation executes, then
one store call per op. -/
def kv_batch (ctx : KvCtx) (ops : List BatchOp) : Except String Unit × List StoreOp :=
  match check_permission ctx.plugin_name "kv_write" ctx.kv_write with
  | .error e => (.error e, [])
  | .ok _ =>
    if ops.isEmpty then (.ok (), [])
    else
      match validateBatchKeys ctx ops with
      | .error e => (.error e, [])
      | .ok _ =>
        (.ok (), ops.map (fun op =>
          match op with
          | .set key value => StoreOp.writeSet key value
          | .del key => StoreOp.writeDelete key))

/-- A parsed `kv_execute` request: the `"op"` dispatch of `kv_execute_impl`
(host.rs lines 1284-1298) with each variant's extracted fields. JSON parsing,
missing-field errors and base64 decoding of the payload fields happen in the
source before the store call and are external to the model; the claims
proved here supply well-formed requests. -/
inductive KvExecRequest where
  | read (key : String)
  | write (key value : String)
  | delete (key : String)
  | scan (scanPfx : String)
  | batch_read (keys : List String)
  | batch_write (ops : List BatchOp)
  | cas (key : String) (expected : Option String) (new_value : String)
  | cad (key expected : String)
  | conditional_batch (conds : List BatchCond) (ops : List BatchOp)
  | unknown (op : String)
deriving DecidableEq, Repr

/-- `kv_execute_impl` (host.rs lines 1276-1307) and the per-op helpers
`kv_exec_read` .. `kv_exec_conditional_batch` (host.rs lines 1309-1645):
each op goes straight to the store — none of these helpers calls
`validate_key_prefix` or `validate_scan_prefix`, and none consults
`permissions.kv_write`. Store outcomes (success, not-leader, CAS-failed) are
all serialized into an `Ok` JSON payload by the source, so the model's
success value is unit; `batch_read` performs one store read per key. -/
def kv_execute_impl (_ctx : KvCtx) :
    KvExecRequest → Except String Unit × List StoreOp
  | .read key => (.ok (), [.read key])
  | .write key value => (.ok (), [.writeSet key value])
  | .delete key => (.ok (), [.writeDelete key])
  | .scan scanPfx => (.ok (), [.scan scanPfx])
  | .batch_read keys => (.ok (), keys.map StoreOp.read)
  | .batch_write ops => (.ok (), [.writeBatch ops])
  | .cas key expected new_value => (.ok (), [.writeCas key expected new_value])
  | .cad key expected => (.ok (), [.writeCad key expected])
  | .conditional_batch conds ops => (.ok (), [.writeCondBatch conds ops])
  | .unknown op => (.error ("unknown kv_execute op: " ++ op), [])

/-- The registered `kv_execute` closure (host.rs lines 1219-1231): a single
permission check under the capability name `"kv_read"`, granted when
`kv_read || kv_write`, then `kv_execute_impl`. -/
def kv_execute (ctx : KvCtx) (req : KvExecRequest) :
    Except String Unit × List StoreOp :=
  match check_permission ctx.plugin_name "kv_read" (ctx.kv_read || ctx.kv_write) with
  | .error e => (.error e, [])
  | .ok _ => kv_execute_impl ctx req

-- ---------------------------------------------------------------------------
-- handler.rs: lifecycle (call_init, call_shutdown, handle)
-- ---------------------------------------------------------------------------

/-- Outcome of one guest invocation under
`tokio::time::timeout(_, spawn_blocking(...))`, matching the Rust
match arms `Ok(Ok(Ok(_)))` / `Ok(Ok(Err(_)))` / `Ok(Err(_))` / `Err(_)`. -/
inductive GuestOutcome where
  | completed
  | guestError
  | panicked
  | timedOut
deriving DecidableEq, Repr

/-- The result of parsing the guest's `plugin_init` response bytes: `none`
models `serde_json::from_slice` failing (the bytes are not valid JSON);
`some ok` models a parse that succeeded with `response["ok"].as_bool()
.unwrap_or(false) = ok` (JSON parsing itself is the external serde
collaborator). -/
abbrev InitParse := Option Bool

/-- `WasmPluginHandler::call_init` (handler.rs lines 155-227) as a state
trace: the states stored by `set_state`, in order, starting with the
unconditional `set_state(Initializing)` at entry, together with whether the
call returned an error.  On `completed` with unparseable output the `?`
on the parse propagates the error before any further `set_state`. -/
def call_init (outcome : GuestOutcome) (parsed : InitParse) :
    List PluginState × Bool :=
  match outcome with
  | .completed =>
    match parsed with
    | none => ([.Initializing], true)
    | some true => ([.Initializing, .Ready], false)
    | some false => ([.Initializing, .Failed], true)
  | .guestError => ([.Initializing, .Failed], true)
  | .panicked => ([.Initializing, .Failed], true)
  | .timedOut => ([.Initializing, .Failed], true)

/-- The state an initial state ends in after a list of `set_state` stores. -/
def finalState (s0 : PluginState) : List PluginState → PluginState
  | [] => s0
  | s :: rest => finalState s rest

/-- Observable steps of `call_shutdown`, in program order. -/
inductive ShutdownEvent where
  | setState (s : PluginState)
  | cancelAllTimers
  | unsubscribeAll
  | invokeGuestShutdown
deriving DecidableEq, Repr

/-- `WasmPluginHandler::call_shutdown` (handler.rs lines 236-278) as an event
trace plus a result flag: `set_state(Stopping)`; `scheduler.cancel_all()` if
the scheduler `OnceLock` is set; `router.unsubscribe_all()` if the router is
set; the guest `plugin_shutdown` invocation under the timeout; then the
unconditional `set_state(Stopped)`.  The returned flag is whether the Rust
function returns `Ok`: timeouts still return `Ok(())` (handler.rs 268-276). -/
def call_shutdown (schedulerSet routerSet : Bool) (outcome : GuestOutcome) :
    List ShutdownEvent × Bool :=
  ([ShutdownEvent.setState .Stopping]
      ++ (if schedulerSet then [ShutdownEvent.cancelAllTimers] else [])
      ++ (if routerSet then [ShutdownEvent.unsubscribeAll] else [])
      ++ [ShutdownEvent.invokeGuestShutdown, ShutdownEvent.setState .Stopped],
    match outcome with
    | .completed => true
    | .guestError => false
    | .panicked => false
    | .timedOut => true)

/-- The states stored by a shutdown trace, in order. -/
def shutdownStates : List ShutdownEvent → List PluginState
  | [] => []
  | .setState s :: rest => s :: shutdownStates rest
  | _ :: rest => shutdownStates rest

/-- Observable steps of `handle` after its state check. -/
inductive HandleEvent where
  | invokeGuestHandleRequest
  | drainSchedulerCommands
  | drainSubscriptionCommands
deriving DecidableEq, Repr

/-- The `{:?}` rendering of a `PluginState` (the derived `Debug` names). -/
def stateName : PluginState → String
  | .Loading => "Loading"
  | .Initializing => "Initializing"
  | .Ready => "Ready"
  | .Degraded => "Degraded"
  | .Stopping => "Stopping"
  | .Stopped => "Stopped"
  | .Failed => "Failed"

/-- `WasmPluginHandler::handle` (handler.rs lines 396-442): unless the
current state is `Ready` or `Degraded`, bail with the "not ready" error
before any guest call; otherwise invoke the guest's `handle_request` under
the timeout and, only if it completed, drain the scheduler and subscription
command queues. -/
def handle (name : String) (state : PluginState) (outcome : GuestOutcome) :
    Except String Unit × List HandleEvent :=
  match state with
  | .Ready | .Degraded =>
    match outcome with
    | .completed =>
      (.ok (), [.invokeGuestHandleRequest, .drainSchedulerCommands,
        .drainSubscriptionCommands])
    | _ => (.error "guest call failed", [.invokeGuestHandleRequest])
  | s =>
    (.error ("Plugin \x27" ++ name ++ "\x27 is not ready (state: "
        ++ stateName s ++ ")"), [])

-- ---------------------------------------------------------------------------
-- scheduler.rs: PluginScheduler::schedule
-- ---------------------------------------------------------------------------

/-- Rust `Ord::clamp(lo, hi)` on `u64` (defined for `lo ≤ hi`). -/
def clampNat (lo hi x : Nat) : Nat :=
  if x < lo then lo else if x > hi then hi else x

/-- `aspen_plugin_api::TimerConfig`: name, interval in milliseconds,
repeating flag. -/
structure TimerConfig where
  name : String
  interval_ms : Nat
  repeating : Bool
deriving DecidableEq, Repr

/-- Observable task operations performed by `schedule`. -/
inductive SchedEvent where
  | abortTask (name : String)
  | spawnTask (name : String) (interval_ms : Nat)
deriving DecidableEq, Repr

/-- `PluginScheduler::schedule` (scheduler.rs lines 56-145), with the
`MIN_TIMER_INTERVAL_MS` / `MAX_TIMER_INTERVAL_MS` / `MAX_TIMERS_PER_PLUGIN`
constants of the external `aspen_plugin_api` crate as parameters.  The timer
`HashMap` is modeled by its key list (keys are distinct).  Order of effects:
clamp the interval; reject if the name is new and the map is at capacity
(map untouched); abort any existing task under the name while removing it;
spawn the replacement task; insert it under the name. -/
def schedule (minMs maxMs maxTimers : Nat) (timers : List String)
    (cfg : TimerConfig) : Except String Unit × List String × List SchedEvent :=
  let interval_ms := clampNat minMs maxMs cfg.interval_ms
  if ¬ timers.contains cfg.name ∧ timers.length ≥ maxTimers then
    (.error ("timer limit reached: plugin already has "
        ++ toString timers.length ++ " timers"), timers, [])
  else
    ((.ok ()),
      cfg.name :: timers.erase cfg.name,
      (if timers.contains cfg.name then [SchedEvent.abortTask cfg.name] else [])
        ++ [SchedEvent.spawnTask cfg.name interval_ms])

-- ---------------------------------------------------------------------------
-- events.rs: PluginEventRouter::subscribe
-- ---------------------------------------------------------------------------

/-- `PluginEventRouter::subscribe` (events.rs lines 61-81), with
`MAX_HOOK_SUBSCRIPTIONS_PER_PLUGIN` (external `aspen_plugin_api` constant)
as a parameter and the `HashSet<String>` modeled as a `Finset String`:
already-present patterns return `Ok` with the set untouched; a new pattern
at capacity is rejected with the set untouched; otherwise it is inserted. -/
def subscribe (maxSubs : Nat) (patterns : Finset String) (pattern : String) :
    Except String Unit × Finset String :=
  if pattern ∈ patterns then (.ok (), patterns)
  else if patterns.card ≥ maxSubs then
    (.error ("subscription limit reached: plugin already has "
        ++ toString patterns.card ++ " subscriptions"), patterns)
  else (.ok (), insert pattern patterns)

-- ---------------------------------------------------------------------------
-- host.rs: base64 transport for structured payload fields
-- ---------------------------------------------------------------------------

/-- The base64 alphabet `CHARS` shared by `base64_encode_bytes` and the
`DECODE` table initializer (host.rs lines 1687 and 1712-1721). -/
def B64CHARS : List Char :=
  "ABCDEFGHIJKLMNOPQRSTUVWXYZabcdefghijklmnopqrstuvwxyz0123456789+/".data

/-- `CHARS[v]` for a 6-bit value (the source indexes with `v < 64` always;
the default is irrelevant). -/
def b64char (v : Nat) : Char :=
  B64CHARS.getD v 'A'

/-- The `DECODE` table of `base64_decode_bytes`: the position of a byte in
the alphabet, `none` for the `0xFF` entries and for bytes `>= 128` (both are
exactly the characters that do not occur in `B64CHARS`). -/
def decodeVal (c : Char) : Option Nat :=
  let i := B64CHARS.indexOf c
  if i < 64 then some i else none

/-- One 3-byte chunk of `base64_encode_bytes` (host.rs lines 1689-1706):
`n = (b0 << 16) | (b1 << 8) | b2` packed from the chunk (`chunk.get(i)
.unwrap_or(0)` giving the 0 defaults), emitted as two unconditional 6-bit
characters plus two characters that are `'='` padding when the chunk is
short.  `len` is `chunk.len()`. -/
def encChunk (b0 b1 b2 len : Nat) : List Char :=
  let n := ((b0 <<< 16) ||| (b1 <<< 8)) ||| b2
  [b64char ((n >>> 18) &&& 63), b64char ((n >>> 12) &&& 63)]
    ++ (if len > 1 then [b64char ((n >>> 6) &&& 63)] else ['='])
    ++ (if len > 2 then [b64char (n &&& 63)] else ['='])

/-- `base64_encode_bytes` (host.rs lines 1686-1708): the `data.chunks(3)`
loop as three-at-a-time recursion. -/
def base64_encode_bytes : List Nat → List Char
  | [] => []
  | [b0] => encChunk b0 0 0 1
  | [b0, b1] => encChunk b0 b1 0 2
  | b0 :: b1 :: b2 :: rest => encChunk b0 b1 b2 3 ++ base64_encode_bytes rest

/-- One table lookup of the decode loop, with the source's error for a byte
outside the alphabet (`b >= 128 || DECODE[b] == 0xFF`). -/
def lookup6 (c : Char) : Except String Nat :=
  match decodeVal c with
  | some v => .ok v
  | none => .error ("invalid base64 character: " ++ toString c)

/-- The inner accumulation loop of `base64_decode_bytes`:
`n |= DECODE[b] << (18 - i*6)` over the chunk with index `i` (the chunk has
at most 4 characters, so `18 - i*6` never underflows in the source). -/
def chunkN : List Char → Nat → Nat → Except String Nat
  | [], _, n => .ok n
  | c :: cs, i, n =>
    match lookup6 c with
    | .error e => .error e
    | .ok v => chunkN cs (i + 1) (n ||| (v <<< (18 - i * 6)))

/-- One chunk of the decode loop: accumulate `n`, then push `(n >> 16) as
u8` always, `(n >> 8) as u8` when the chunk has more than 2 characters, and
`n as u8` when it has more than 3 (the `as u8` truncations written
`% 256`). -/
def decChunk (chunk : List Char) : Except String (List Nat) :=
  match chunkN chunk 0 0 with
  | .error e => .error e
  | .ok n =>
    .ok ([(n >>> 16) % 256]
      ++ (if chunk.length > 2 then [(n >>> 8) % 256] else [])
      ++ (if chunk.length > 3 then [n % 256] else []))

/-- The `bytes.chunks(4)` loop of `base64_decode_bytes` as four-at-a-time
recursion over the already-trimmed input. -/
def b64decodeChunks : List Char → Except String (List Nat)
  | [] => .ok []
  | c0 :: c1 :: c2 :: c3 :: rest =>
    match decChunk [c0, c1, c2, c3] with
    | .error e => .error e
    | .ok bs =>
      match b64decodeChunks rest with
      | .error e => .error e
      | .ok tail => .ok (bs ++ tail)
  | chunk => decChunk chunk

/-- Rust `str::trim_end_matches('=')`: drop every trailing `'='`. -/
def trimPad (l : List Char) : List Char :=
  (l.reverse.dropWhile (fun c => c = '=')).reverse

/-- `base64_decode_bytes` (host.rs lines 1711-1745): trim the `'='`
padding, then decode 4-character chunks. -/
def base64_decode_bytes (input : List Char) : Except String (List Nat) :=
  b64decodeChunks (trimPad input)

end Aspen

-- ---------------------------------------------------------------------------
-- Theorems: C3 (pattern matching) and C9 (default namespace resolution)
-- ---------------------------------------------------------------------------

namespace Aspen

theorem patternMatchesTokens_iff (pp tp : List (List Char)) :
    patternMatchesTokens pp tp = true ↔ specTokensMatch pp tp := by
  induction pp generalizing tp with
  | nil =>
    cases tp <;> simp [patternMatchesTokens, specTokensMatch]
  | cons p pr ih =>
    by_cases hgt : p = ['>']
    · subst hgt
      cases tp <;> simp [patternMatchesTokens, specTokensMatch]
    · cases tp with
      | nil => simp [patternMatchesTokens, specTokensMatch, hgt]
      | cons t tr =>
        by_cases hstar : p = ['*']
        · subst hstar
          simp [patternMatchesTokens, specTokensMatch, ih]
        · by_cases heq : p = t
          · subst heq
            simp [patternMatchesTokens, specTokensMatch, hgt, hstar, ih]
          · simp [patternMatchesTokens, specTokensMatch, hgt, hstar, heq]

/-- C3: `pattern_matches` agrees with the specification's left-to-right token
walk (with `>` succeeding immediately, `*` consuming exactly one segment,
literals compared exactly, topic-exhaustion failing, and exact exhaustion
required when the pattern runs out), and the spec's concrete examples hold:
`hooks.kv.*` matches `hooks.kv.write_committed` but neither
`hooks.cluster.leader_elected` nor `hooks.kv`, and `hooks.>` matches `hooks`
and deeper topics under `hooks`. -/
theorem C3_pattern_matching_spec :
    (∀ pattern topic : String,
      pattern_matches pattern topic = true ↔
        specTokensMatch (splitOnChar '.' pattern.data) (splitOnChar '.' topic.data)) ∧
    pattern_matches "hooks.kv.*" "hooks.kv.write_committed" = true ∧
    pattern_matches "hooks.kv.*" "hooks.cluster.leader_elected" = false ∧
    pattern_matches "hooks.kv.*" "hooks.kv" = false ∧
    pattern_matches "hooks.>" "hooks" = true ∧
    pattern_matches "hooks.>" "hooks.kv.write_committed" = true ∧
    pattern_matches "hooks.>" "hooks.kv.deep.deeper.deepest" = true := by
  refine ⟨fun pattern topic => patternMatchesTokens_iff _ _, ?_, ?_, ?_, ?_, ?_, ?_⟩
    <;> decide

theorem string_append_right_cancel (a b c : String) (h : a ++ c = b ++ c) :
    a = b := by
  have hd : a.data ++ c.data = b.data ++ c.data := by
    have := congrArg String.data h
    simpa [String.data_append] using this
  have : a.data = b.data := List.append_cancel_right hd
  cases a; cases b; exact congrArg String.mk this

/-- C9: with no declared prefixes, `with_kv_prefixes` resolves to exactly the
one default prefix `template ++ name ++ ":"`; this default resolution is
injective in the plugin name (two distinct names never share a default
prefix); and a non-empty declared list is used unchanged. -/
theorem C9_default_namespace_resolution (template : String) :
    (∀ name : String, with_kv_prefixes template name [] = [template ++ name ++ ":"]) ∧
    (∀ n₁ n₂ : String,
      with_kv_prefixes template n₁ [] = with_kv_prefixes template n₂ [] → n₁ = n₂) ∧
    (∀ (name : String) (ps : List String), ps ≠ [] →
      with_kv_prefixes template name ps = ps) := by
  refine ⟨fun name => rfl, fun n₁ n₂ h => ?_, fun name ps hps => ?_⟩
  · simp only [with_kv_prefixes, List.isEmpty_nil, if_pos] at h
    have h1 : template ++ n₁ ++ ":" = template ++ n₂ ++ ":" := by
      simpa using h
    have h2 : template ++ n₁ = template ++ n₂ :=
      string_append_right_cancel _ _ _ h1
    have hd : template.data ++ n₁.data = template.data ++ n₂.data := by
      have := congrArg String.data h2
      simpa [String.data_append] using this
    have : n₁.data = n₂.data := List.append_cancel_left hd
    cases n₁; cases n₂; exact congrArg String.mk this
  · simp [with_kv_prefixes, List.isEmpty_iff, hps]

/-- Witness for C9 at template `"__plugin:"` (the value of
`DEFAULT_PLUGIN_KV_PREFIX_TEMPLATE` fixed by the repository's own unit test)
and concrete plugin names. -/
theorem C9_default_namespace_resolution_witness :
    with_kv_prefixes "__plugin:" "my-plugin" [] = ["__plugin:my-plugin:"] ∧
    (with_kv_prefixes "__plugin:" "alpha" [] = with_kv_prefixes "__plugin:" "beta" [] →
      "alpha" = "beta") ∧
    with_kv_prefixes "__plugin:" "my-plugin" ["forge:"] = ["forge:"] := by
  obtain ⟨h1, h2, h3⟩ := C9_default_namespace_resolution "__plugin:"
  exact ⟨h1 "my-plugin", h2 "alpha" "beta", h3 "my-plugin" ["forge:"] (by decide)⟩

-- ---------------------------------------------------------------------------
-- Theorems: C1 and C2 (kv_execute bypasses the capability gate)
-- ---------------------------------------------------------------------------

/-- C1 fails on the code: for the plugin with allowed-prefix set
`["__plugin:p:"]`, the key `"other:secret"` is outside every allowed prefix
(`validate_key_prefix` and `kv_get` both reject it with a namespace-violation
error and no store call), yet the `kv_execute` entry point forwards the
`read`, `write` and `scan` ops on that key straight to the underlying store
with no namespace-violation error: the per-op helpers
`kv_exec_read`/`kv_exec_write`/`kv_exec_scan` (host.rs 1309-1415) never call
`validate_key_prefix`/`validate_scan_prefix`. -/
theorem C1_kv_execute_bypasses_namespace :
    (∃ e, validate_key_prefix "p" ["__plugin:p:"] "other:secret" "read" = .error e) ∧
    (∃ e, kv_get ⟨"p", ["__plugin:p:"], true, true⟩ "other:secret" = (.error e, [])) ∧
    kv_execute ⟨"p", ["__plugin:p:"], true, true⟩ (.read "other:secret")
      = (.ok (), [.read "other:secret"]) ∧
    kv_execute ⟨"p", ["__plugin:p:"], true, true⟩ (.write "other:secret" "v")
      = (.ok (), [.writeSet "other:secret" "v"]) ∧
    kv_execute ⟨"p", ["__plugin:p:"], true, true⟩ (.scan "other:")
      = (.ok (), [.scan "other:"]) :=
  ⟨⟨_, rfl⟩, ⟨_, rfl⟩, rfl, rfl, rfl⟩

/-- C2 fails on the code: with `kv_write = false` (and `kv_read = true`),
every direct key-write host call (`kv_put`, `kv_delete`, `kv_cas`,
`kv_batch`) returns the permission-denied error with no store call — but the
`kv_execute` entry point is gated only on `kv_read || kv_write`
(host.rs 1222-1227), so its write/delete/cas/cad/batch_write/
conditional_batch ops all reach the underlying store's write for this
read-only plugin. -/
theorem C2_kv_execute_bypasses_write_permission :
    (∃ e, check_permission "p" "kv_write" false = .error e ∧
      kv_put ⟨"p", ["__plugin:p:"], true, false⟩ "__plugin:p:x" "v" = (.error e, []) ∧
      kv_delete ⟨"p", ["__plugin:p:"], true, false⟩ "__plugin:p:x" = (.error e, []) ∧
      kv_cas ⟨"p", ["__plugin:p:"], true, false⟩ "__plugin:p:x" none "v" = (.error e, []) ∧
      kv_batch ⟨"p", ["__plugin:p:"], true, false⟩ [.set "__plugin:p:x" "v"] = (.error e, [])) ∧
    kv_execute ⟨"p", ["__plugin:p:"], true, false⟩ (.write "__plugin:p:x" "v")
      = (.ok (), [.writeSet "__plugin:p:x" "v"]) ∧
    kv_execute ⟨"p", ["__plugin:p:"], true, false⟩ (.delete "__plugin:p:x")
      = (.ok (), [.writeDelete "__plugin:p:x"]) ∧
    kv_execute ⟨"p", ["__plugin:p:"], true, false⟩ (.cas "__plugin:p:x" none "v")
      = (.ok (), [.writeCas "__plugin:p:x" none "v"]) ∧
    kv_execute ⟨"p", ["__plugin:p:"], true, false⟩ (.cad "__plugin:p:x" "old")
      = (.ok (), [.writeCad "__plugin:p:x" "old"]) ∧
    kv_execute ⟨"p", ["__plugin:p:"], true, false⟩ (.batch_write [.set "__plugin:p:x" "v"])
      = (.ok (), [.writeBatch [.set "__plugin:p:x" "v"]]) ∧
    kv_execute ⟨"p", ["__plugin:p:"], true, false⟩
        (.conditional_batch [] [.set "__plugin:p:x" "v"])
      = (.ok (), [.writeCondBatch [] [.set "__plugin:p:x" "v"]]) :=
  ⟨⟨_, rfl, rfl, rfl, rfl, rfl⟩, rfl, rfl, rfl, rfl, rfl, rfl⟩

-- ---------------------------------------------------------------------------
-- Theorems: C4, C8, C10 (handler lifecycle)
-- ---------------------------------------------------------------------------

/-- C4: whatever the guest's shutdown entry point does (success, reported
error, panic, timeout) and whether or not the scheduler/router were ever
created, `call_shutdown` ends with the state `Stopped`, and every
timer-cancellation and subscription-clearing step happens strictly before
the guest's shutdown entry point is invoked. -/
theorem C4_call_shutdown_spec (sp rp : Bool) (o : GuestOutcome) :
    (∀ s0 : PluginState,
      finalState s0 (shutdownStates (call_shutdown sp rp o).1) = .Stopped) ∧
    ∃ pre post,
      (call_shutdown sp rp o).1 = pre ++ ShutdownEvent.invokeGuestShutdown :: post ∧
      ShutdownEvent.invokeGuestShutdown ∉ pre ∧
      ShutdownEvent.cancelAllTimers ∉ post ∧
      ShutdownEvent.unsubscribeAll ∉ post ∧
      (sp = true → ShutdownEvent.cancelAllTimers ∈ pre) ∧
      (rp = true → ShutdownEvent.unsubscribeAll ∈ pre) := by
  refine ⟨fun s0 => by cases sp <;> cases rp <;> rfl, ?_⟩
  cases sp <;> cases rp
  · exact ⟨[.setState .Stopping], [.setState .Stopped],
      rfl, by decide, by decide, by decide, by decide, by decide⟩
  · exact ⟨[.setState .Stopping, .unsubscribeAll], [.setState .Stopped],
      rfl, by decide, by decide, by decide, by decide, by decide⟩
  · exact ⟨[.setState .Stopping, .cancelAllTimers], [.setState .Stopped],
      rfl, by decide, by decide, by decide, by decide, by decide⟩
  · exact ⟨[.setState .Stopping, .cancelAllTimers, .unsubscribeAll],
      [.setState .Stopped],
      rfl, by decide, by decide, by decide, by decide, by decide⟩

/-- Witness for C4 at scheduler and router present and a timed-out guest. -/
theorem C4_call_shutdown_spec_witness :
    finalState .Ready (shutdownStates (call_shutdown true true .timedOut).1)
      = .Stopped :=
  (C4_call_shutdown_spec true true .timedOut).1 .Ready

/-- C8: a request dispatched while the plugin state is neither `Ready` nor
`Degraded` is answered with the descriptive "not ready" error, and no guest
invocation and no command-queue drain occurs. -/
theorem C8_not_ready_rejected (name : String) (st : PluginState)
    (o : GuestOutcome) (h1 : st ≠ .Ready) (h2 : st ≠ .Degraded) :
    handle name st o
      = (.error ("Plugin \x27" ++ name ++ "\x27 is not ready (state: "
          ++ stateName st ++ ")"), []) := by
  cases st <;> simp_all [handle]

/-- Witness for C8 at state `Stopped`. -/
theorem C8_not_ready_rejected_witness :
    handle "p" .Stopped .completed
      = (.error "Plugin \x27p\x27 is not ready (state: Stopped)", []) :=
  C8_not_ready_rejected "p" .Stopped .completed (by decide) (by decide)

/-- C10: when the guest's `plugin_init` call completes but its output fails
JSON parsing, `call_init` returns an error yet the only state ever stored is
`Initializing` — neither `Ready` nor `Failed` is reached — while
guest-reported failure, panic and timeout all end in `Failed` and a
successful parse with `ok = true` ends in `Ready`. -/
theorem C10_invalid_init_json_leaves_initializing :
    (call_init .completed none).1 = [.Initializing] ∧
    (call_init .completed none).2 = true ∧
    finalState .Loading (call_init .completed none).1 = .Initializing ∧
    finalState .Loading (call_init .completed none).1 ≠ .Ready ∧
    finalState .Loading (call_init .completed none).1 ≠ .Failed ∧
    finalState .Loading (call_init .completed (some false)).1 = .Failed ∧
    finalState .Loading (call_init .guestError none).1 = .Failed ∧
    finalState .Loading (call_init .panicked none).1 = .Failed ∧
    finalState .Loading (call_init .timedOut none).1 = .Failed ∧
    finalState .Loading (call_init .completed (some true)).1 = .Ready := by
  decide

-- ---------------------------------------------------------------------------
-- Theorems: C6 (scheduler) and C7 (subscriptions)
-- ---------------------------------------------------------------------------

/-- C6: `schedule` clamps the interval into `[minMs, maxMs]` (below raised,
above lowered, inside unchanged); it returns an error — with the timer map
unchanged and no task touched — exactly when the name is new and the map is
at capacity; and when the name is already present the call succeeds and
aborts the prior task before spawning the replacement. -/
theorem C6_schedule_spec (minMs maxMs maxTimers : Nat) (timers : List String)
    (cfg : TimerConfig) (hlohi : minMs ≤ maxMs) :
    (cfg.interval_ms < minMs → clampNat minMs maxMs cfg.interval_ms = minMs) ∧
    (maxMs < cfg.interval_ms → clampNat minMs maxMs cfg.interval_ms = maxMs) ∧
    (minMs ≤ cfg.interval_ms → cfg.interval_ms ≤ maxMs →
      clampNat minMs maxMs cfg.interval_ms = cfg.interval_ms) ∧
    ((∃ e, (schedule minMs maxMs maxTimers timers cfg).1 = .error e) ↔
      (cfg.name ∉ timers ∧ maxTimers ≤ timers.length)) ∧
    (∀ e, (schedule minMs maxMs maxTimers timers cfg).1 = .error e →
      (schedule minMs maxMs maxTimers timers cfg).2.1 = timers ∧
      (schedule minMs maxMs maxTimers timers cfg).2.2 = []) ∧
    (cfg.name ∈ timers →
      (schedule minMs maxMs maxTimers timers cfg).1 = .ok () ∧
      (schedule minMs maxMs maxTimers timers cfg).2.2
        = [.abortTask cfg.name,
           .spawnTask cfg.name (clampNat minMs maxMs cfg.interval_ms)]) := by
  refine ⟨?_, ?_, ?_, ?_, ?_, ?_⟩
  · intro h; unfold clampNat; split <;> omega
  · intro h; unfold clampNat; split <;> omega
  · intro h1 h2; unfold clampNat; split <;> (try split) <;> omega
  · by_cases hc : cfg.name ∈ timers <;>
      by_cases hl : maxTimers ≤ timers.length <;>
      simp [schedule, hc, hl]
  · intro e
    by_cases hc : cfg.name ∈ timers <;>
      by_cases hl : maxTimers ≤ timers.length <;>
      intro he <;> simp [schedule, hc, hl] at he ⊢
  · intro hc
    simp [schedule, hc]

/-- Witness for C6 at the real interval bounds (1 000 ms and 86 400 000 ms,
from the scheduler unit tests), capacity 2, and a map already holding the
timer name `"a"`. -/
theorem C6_schedule_spec_witness :
    clampNat 1000 86400000 100 = 1000 ∧
    (schedule 1000 86400000 2 ["a", "b"] ⟨"a", 100, true⟩).1 = .ok () ∧
    (schedule 1000 86400000 2 ["a", "b"] ⟨"a", 100, true⟩).2.2
      = [.abortTask "a", .spawnTask "a" 1000] := by
  have h := C6_schedule_spec 1000 86400000 2 ["a", "b"] ⟨"a", 100, true⟩ (by norm_num)
  refine ⟨h.1 (by norm_num), ?_, ?_⟩
  · exact (h.2.2.2.2.2 (by decide)).1
  · have := (h.2.2.2.2.2 (by decide)).2
    simpa [h.1 (by norm_num)] using this

/-- C7: `subscribe` is idempotent — an already-present pattern succeeds and
leaves the subscription set (hence its count) unchanged; a new pattern when
the set is at capacity is rejected with a bounded-resource error and the set
unchanged; otherwise the pattern is added. -/
theorem C7_subscribe_spec (maxSubs : Nat) (patterns : Finset String)
    (p : String) :
    (p ∈ patterns → subscribe maxSubs patterns p = (.ok (), patterns)) ∧
    (p ∉ patterns → maxSubs ≤ patterns.card →
      ∃ e, subscribe maxSubs patterns p = (.error e, patterns)) ∧
    (p ∉ patterns → patterns.card < maxSubs →
      subscribe maxSubs patterns p = (.ok (), insert p patterns)) := by
  refine ⟨fun hm => by simp [subscribe, hm], fun hm hc => ?_, fun hm hc => ?_⟩
  · exact ⟨"subscription limit reached: plugin already has "
        ++ toString patterns.card ++ " subscriptions",
      by simp [subscribe, hm, hc]⟩
  · simp [subscribe, hm, Nat.not_le.mpr hc]

/-- Witness for C7 at capacity 1 with the one-pattern set `{"hooks.>"}`:
re-subscribing the present pattern succeeds unchanged, and a second pattern
is rejected. -/
theorem C7_subscribe_spec_witness :
    subscribe 1 {"hooks.>"} "hooks.>" = (.ok (), {"hooks.>"}) ∧
    ∃ e, subscribe 1 {"hooks.>"} "hooks.kv.*" = (.error e, {"hooks.>"}) := by
  refine ⟨(C7_subscribe_spec 1 {"hooks.>"} "hooks.>").1 (by decide), ?_⟩
  exact (C7_subscribe_spec 1 {"hooks.>"} "hooks.kv.*").2.1 (by decide) (by decide)

end Aspen

-- ---------------------------------------------------------------------------
-- Theorems: C5 (base64 round-trip)
-- ---------------------------------------------------------------------------

namespace Aspen

theorem decodeVal_b64char : ∀ v < 64, decodeVal (b64char v) = some v := by decide

theorem b64char_ne_pad : ∀ v < 64, b64char v ≠ '=' := by decide

theorem and63 (x : Nat) : x &&& 63 = x % 64 := by
  have h := Nat.and_pow_two_sub_one_eq_mod x 6
  norm_num at h
  exact h

theorem lorAdd {k : Nat} (a b : Nat) (hb : b < 2 ^ k) :
    (2 ^ k * a) ||| b = 2 ^ k * a + b :=
  (Nat.mul_add_lt_is_or hb a).symm

theorem enc_n_arith (b0 b1 b2 : Nat) (h1 : b1 < 256) (h2 : b2 < 256) :
    ((b0 <<< 16) ||| (b1 <<< 8)) ||| b2 = 65536 * b0 + 256 * b1 + b2 := by
  have h2' : b2 < 2 ^ 8 := by norm_num; omega
  have hb1 : (2 : Nat) ^ 8 * b1 + b2 < 2 ^ 16 := by norm_num; omega
  rw [Nat.lor_assoc, Nat.shiftLeft_eq, Nat.shiftLeft_eq]
  rw [show b1 * 2 ^ 8 = 2 ^ 8 * b1 from Nat.mul_comm _ _]
  rw [lorAdd b1 b2 h2']
  rw [show b0 * 2 ^ 16 = 2 ^ 16 * b0 from Nat.mul_comm _ _]
  rw [lorAdd b0 _ hb1]
  norm_num
  ring

theorem dec_n_arith4 (v0 v1 v2 v3 : Nat) (h1 : v1 < 64) (h2 : v2 < 64) (h3 : v3 < 64) :
    (((v0 <<< 18) ||| (v1 <<< 12)) ||| (v2 <<< 6)) ||| v3
      = 262144 * v0 + 4096 * v1 + 64 * v2 + v3 := by
  have h3' : v3 < 2 ^ 6 := by norm_num; omega
  have hc : (2 : Nat) ^ 6 * v2 + v3 < 2 ^ 12 := by norm_num; omega
  have hb : (2 : Nat) ^ 12 * v1 + (2 ^ 6 * v2 + v3) < 2 ^ 18 := by norm_num; omega
  rw [Nat.lor_assoc, Nat.lor_assoc]
  rw [Nat.shiftLeft_eq, Nat.shiftLeft_eq, Nat.shiftLeft_eq]
  rw [show v2 * 2 ^ 6 = 2 ^ 6 * v2 from Nat.mul_comm _ _]
  rw [lorAdd v2 v3 h3']
  rw [show v1 * 2 ^ 12 = 2 ^ 12 * v1 from Nat.mul_comm _ _]
  rw [lorAdd v1 _ hc]
  rw [show v0 * 2 ^ 18 = 2 ^ 18 * v0 from Nat.mul_comm _ _]
  rw [lorAdd v0 _ hb]
  norm_num
  ring

theorem dec_n_arith2 (v0 v1 : Nat) (h1 : v1 < 64) :
    (v0 <<< 18) ||| (v1 <<< 12) = 262144 * v0 + 4096 * v1 := by
  have hb : (2 : Nat) ^ 12 * v1 < 2 ^ 18 := by norm_num; omega
  rw [Nat.shiftLeft_eq, Nat.shiftLeft_eq]
  rw [show v1 * 2 ^ 12 = 2 ^ 12 * v1 from Nat.mul_comm _ _]
  rw [show v0 * 2 ^ 18 = 2 ^ 18 * v0 from Nat.mul_comm _ _]
  rw [lorAdd v0 _ hb]
  norm_num

theorem dec_n_arith3 (v0 v1 v2 : Nat) (h1 : v1 < 64) (h2 : v2 < 64) :
    ((v0 <<< 18) ||| (v1 <<< 12)) ||| (v2 <<< 6)
      = 262144 * v0 + 4096 * v1 + 64 * v2 := by
  have hc : (2 : Nat) ^ 6 * v2 < 2 ^ 12 := by norm_num; omega
  have hb : (2 : Nat) ^ 12 * v1 + 2 ^ 6 * v2 < 2 ^ 18 := by norm_num; omega
  rw [Nat.lor_assoc]
  rw [Nat.shiftLeft_eq, Nat.shiftLeft_eq, Nat.shiftLeft_eq]
  rw [show v2 * 2 ^ 6 = 2 ^ 6 * v2 from Nat.mul_comm _ _]
  rw [show v1 * 2 ^ 12 = 2 ^ 12 * v1 from Nat.mul_comm _ _]
  rw [lorAdd v1 _ hc]
  rw [show v0 * 2 ^ 18 = 2 ^ 18 * v0 from Nat.mul_comm _ _]
  rw [lorAdd v0 _ hb]
  norm_num
  ring

theorem decChunk_four (d0 d1 d2 d3 : Nat) (h0 : d0 < 64) (h1 : d1 < 64)
    (h2 : d2 < 64) (h3 : d3 < 64) :
    decChunk [b64char d0, b64char d1, b64char d2, b64char d3]
      = .ok [(262144 * d0 + 4096 * d1 + 64 * d2 + d3) / 65536 % 256,
             (262144 * d0 + 4096 * d1 + 64 * d2 + d3) / 256 % 256,
             (262144 * d0 + 4096 * d1 + 64 * d2 + d3) % 256] := by
  simp only [decChunk, chunkN, lookup6, decodeVal_b64char d0 h0,
    decodeVal_b64char d1 h1, decodeVal_b64char d2 h2, decodeVal_b64char d3 h3]
  norm_num
  rw [dec_n_arith4 d0 d1 d2 d3 h1 h2 h3,
    Nat.shiftRight_eq_div_pow, Nat.shiftRight_eq_div_pow]
  norm_num

theorem decChunk_three (d0 d1 d2 : Nat) (h0 : d0 < 64) (h1 : d1 < 64)
    (h2 : d2 < 64) :
    decChunk [b64char d0, b64char d1, b64char d2]
      = .ok [(262144 * d0 + 4096 * d1 + 64 * d2) / 65536 % 256,
             (262144 * d0 + 4096 * d1 + 64 * d2) / 256 % 256] := by
  simp only [decChunk, chunkN, lookup6, decodeVal_b64char d0 h0,
    decodeVal_b64char d1 h1, decodeVal_b64char d2 h2]
  norm_num
  rw [dec_n_arith3 d0 d1 d2 h1 h2,
    Nat.shiftRight_eq_div_pow, Nat.shiftRight_eq_div_pow]
  norm_num

theorem decChunk_two (d0 d1 : Nat) (h0 : d0 < 64) (h1 : d1 < 64) :
    decChunk [b64char d0, b64char d1]
      = .ok [(262144 * d0 + 4096 * d1) / 65536 % 256] := by
  simp only [decChunk, chunkN, lookup6, decodeVal_b64char d0 h0,
    decodeVal_b64char d1 h1]
  norm_num
  rw [dec_n_arith2 d0 d1 h1, Nat.shiftRight_eq_div_pow]

theorem dropWhile_eq_self_of_none {a : Type} (p : a → Bool) (l : List a)
    (h : ∀ c ∈ l, ¬ p c = true) : l.dropWhile p = l := by
  cases l with
  | nil => rfl
  | cons x t => exact List.dropWhile_cons_of_neg (h x (List.mem_cons_self x t))

theorem trimPad_append (xs ys : List Char) (h : ∀ c ∈ xs, ¬ c = '=') :
    trimPad (xs ++ ys) = xs ++ trimPad ys := by
  unfold trimPad
  rw [List.reverse_append, List.dropWhile_append]
  have hxs : ∀ c ∈ xs.reverse, ¬ (fun c => decide (c = '=')) c = true := by
    intro c hc
    simp only [List.mem_reverse] at hc
    simp [h c hc]
  by_cases hy : ((ys.reverse).dropWhile (fun c => decide (c = '='))).isEmpty
  · rw [if_pos hy]
    rw [dropWhile_eq_self_of_none _ _ hxs]
    rw [List.isEmpty_iff] at hy
    simp [hy]
  · rw [if_neg hy, List.reverse_append]
    simp

theorem rt_one (b0 : Nat) (h0 : b0 < 256) :
    base64_decode_bytes (base64_encode_bytes [b0]) = .ok [b0] := by
  have hN : ((b0 <<< 16) ||| (0 <<< 8)) ||| 0 = 65536 * b0 + 256 * 0 + 0 :=
    enc_n_arith b0 0 0 (by omega) (by omega)
  have henc : base64_encode_bytes [b0]
      = [b64char (65536 * b0 / 262144 % 64), b64char (65536 * b0 / 4096 % 64),
         '=', '='] := by
    simp only [base64_encode_bytes, encChunk, hN]
    norm_num [Nat.shiftRight_eq_div_pow, and63]
  have hd0 : 65536 * b0 / 262144 % 64 < 64 := by omega
  have hd1 : 65536 * b0 / 4096 % 64 < 64 := by omega
  have hnp : ∀ c ∈ [b64char (65536 * b0 / 262144 % 64),
      b64char (65536 * b0 / 4096 % 64)], ¬ c = '=' := by
    intro c hc
    simp only [List.mem_cons, List.not_mem_nil, or_false] at hc
    rcases hc with hc | hc <;> subst hc
    · exact b64char_ne_pad _ hd0
    · exact b64char_ne_pad _ hd1
  have htrim : trimPad [b64char (65536 * b0 / 262144 % 64),
      b64char (65536 * b0 / 4096 % 64), '=', '=']
      = [b64char (65536 * b0 / 262144 % 64), b64char (65536 * b0 / 4096 % 64)] := by
    rw [show [b64char (65536 * b0 / 262144 % 64), b64char (65536 * b0 / 4096 % 64),
        '=', '='] = [b64char (65536 * b0 / 262144 % 64),
        b64char (65536 * b0 / 4096 % 64)] ++ ['=', '='] from rfl]
    rw [trimPad_append _ _ hnp]
    rfl
  rw [henc]
  simp only [base64_decode_bytes]
  rw [htrim]
  have hdec := decChunk_two _ _ hd0 hd1
  simp only [b64decodeChunks, hdec]
  simp only [Except.ok.injEq, List.cons.injEq, and_true]
  omega

theorem rt_two (b0 b1 : Nat) (h0 : b0 < 256) (h1 : b1 < 256) :
    base64_decode_bytes (base64_encode_bytes [b0, b1]) = .ok [b0, b1] := by
  have hN : ((b0 <<< 16) ||| (b1 <<< 8)) ||| 0 = 65536 * b0 + 256 * b1 + 0 :=
    enc_n_arith b0 b1 0 h1 (by omega)
  have henc : base64_encode_bytes [b0, b1]
      = [b64char ((65536 * b0 + 256 * b1) / 262144 % 64),
         b64char ((65536 * b0 + 256 * b1) / 4096 % 64),
         b64char ((65536 * b0 + 256 * b1) / 64 % 64), '='] := by
    simp only [base64_encode_bytes, encChunk, hN]
    norm_num [Nat.shiftRight_eq_div_pow, and63]
  have hd0 : (65536 * b0 + 256 * b1) / 262144 % 64 < 64 := by omega
  have hd1 : (65536 * b0 + 256 * b1) / 4096 % 64 < 64 := by omega
  have hd2 : (65536 * b0 + 256 * b1) / 64 % 64 < 64 := by omega
  have hnp : ∀ c ∈ [b64char ((65536 * b0 + 256 * b1) / 262144 % 64),
      b64char ((65536 * b0 + 256 * b1) / 4096 % 64),
      b64char ((65536 * b0 + 256 * b1) / 64 % 64)], ¬ c = '=' := by
    intro c hc
    simp only [List.mem_cons, List.not_mem_nil, or_false] at hc
    rcases hc with hc | hc | hc <;> subst hc
    · exact b64char_ne_pad _ hd0
    · exact b64char_ne_pad _ hd1
    · exact b64char_ne_pad _ hd2
  have htrim : trimPad [b64char ((65536 * b0 + 256 * b1) / 262144 % 64),
      b64char ((65536 * b0 + 256 * b1) / 4096 % 64),
      b64char ((65536 * b0 + 256 * b1) / 64 % 64), '=']
      = [b64char ((65536 * b0 + 256 * b1) / 262144 % 64),
         b64char ((65536 * b0 + 256 * b1) / 4096 % 64),
         b64char ((65536 * b0 + 256 * b1) / 64 % 64)] := by
    rw [show [b64char ((65536 * b0 + 256 * b1) / 262144 % 64),
        b64char ((65536 * b0 + 256 * b1) / 4096 % 64),
        b64char ((65536 * b0 + 256 * b1) / 64 % 64), '=']
        = [b64char ((65536 * b0 + 256 * b1) / 262144 % 64),
           b64char ((65536 * b0 + 256 * b1) / 4096 % 64),
           b64char ((65536 * b0 + 256 * b1) / 64 % 64)] ++ ['='] from rfl]
    rw [trimPad_append _ _ hnp]
    rfl
  rw [henc]
  simp only [base64_decode_bytes]
  rw [htrim]
  have hdec := decChunk_three _ _ _ hd0 hd1 hd2
  simp only [b64decodeChunks, hdec]
  simp only [Except.ok.injEq, List.cons.injEq, and_true]
  omega

theorem rt_chunk3 (b0 b1 b2 : Nat) (h0 : b0 < 256) (h1 : b1 < 256) (h2 : b2 < 256) :
    ∃ q0 q1 q2 q3 : Char,
      encChunk b0 b1 b2 3 = [q0, q1, q2, q3] ∧
      (∀ c ∈ [q0, q1, q2, q3], ¬ c = '=') ∧
      decChunk [q0, q1, q2, q3] = .ok [b0, b1, b2] := by
  have hN : ((b0 <<< 16) ||| (b1 <<< 8)) ||| b2 = 65536 * b0 + 256 * b1 + b2 :=
    enc_n_arith b0 b1 b2 h1 h2
  have hd0 : (65536 * b0 + 256 * b1 + b2) / 262144 % 64 < 64 := by omega
  have hd1 : (65536 * b0 + 256 * b1 + b2) / 4096 % 64 < 64 := by omega
  have hd2 : (65536 * b0 + 256 * b1 + b2) / 64 % 64 < 64 := by omega
  have hd3 : (65536 * b0 + 256 * b1 + b2) % 64 < 64 := by omega
  refine ⟨b64char ((65536 * b0 + 256 * b1 + b2) / 262144 % 64),
    b64char ((65536 * b0 + 256 * b1 + b2) / 4096 % 64),
    b64char ((65536 * b0 + 256 * b1 + b2) / 64 % 64),
    b64char ((65536 * b0 + 256 * b1 + b2) % 64), ?_, ?_, ?_⟩
  · simp only [encChunk, hN]
    norm_num [Nat.shiftRight_eq_div_pow, and63]
  · intro c hc
    simp only [List.mem_cons, List.not_mem_nil, or_false] at hc
    rcases hc with hc | hc | hc | hc <;> subst hc
    · exact b64char_ne_pad _ hd0
    · exact b64char_ne_pad _ hd1
    · exact b64char_ne_pad _ hd2
    · exact b64char_ne_pad _ hd3
  · rw [decChunk_four _ _ _ _ hd0 hd1 hd2 hd3]
    simp only [Except.ok.injEq, List.cons.injEq, and_true]
    omega

theorem rt_main : ∀ (L : Nat) (data : List Nat), data.length ≤ L →
    (∀ b ∈ data, b < 256) →
    base64_decode_bytes (base64_encode_bytes data) = .ok data := by
  intro L
  induction L with
  | zero =>
    intro data hlen _
    cases data with
    | nil => rfl
    | cons a t => simp at hlen
  | succ L ih =>
    intro data hlen hb
    match data with
    | [] => rfl
    | [b0] => exact rt_one b0 (hb b0 (by simp))
    | [b0, b1] => exact rt_two b0 b1 (hb b0 (by simp)) (hb b1 (by simp))
    | b0 :: b1 :: b2 :: rest =>
      obtain ⟨q0, q1, q2, q3, henc, hnp, hdec⟩ :=
        rt_chunk3 b0 b1 b2 (hb b0 (by simp)) (hb b1 (by simp)) (hb b2 (by simp))
      have hrest : base64_decode_bytes (base64_encode_bytes rest) = .ok rest := by
        refine ih rest ?_ ?_
        · simp only [List.length_cons] at hlen; omega
        · intro b hbm; exact hb b (by simp [hbm])
      have hencall : base64_encode_bytes (b0 :: b1 :: b2 :: rest)
          = [q0, q1, q2, q3] ++ base64_encode_bytes rest := by
        rw [show base64_encode_bytes (b0 :: b1 :: b2 :: rest)
            = encChunk b0 b1 b2 3 ++ base64_encode_bytes rest from rfl, henc]
      rw [hencall]
      simp only [base64_decode_bytes]
      rw [trimPad_append _ _ hnp]
      have hrest2 : b64decodeChunks (trimPad (base64_encode_bytes rest)) = .ok rest :=
        hrest
      simp only [List.cons_append, List.nil_append, b64decodeChunks, hdec]
      simp [hrest2]

/-- C5: decoding the encoding of any byte sequence through the base64
transport used for structured payload fields returns exactly the original
bytes, including the empty sequence. -/
theorem C5_base64_round_trip (data : List Nat) (h : ∀ b ∈ data, b < 256) :
    base64_decode_bytes (base64_encode_bytes data) = .ok data :=
  rt_main data.length data le_rfl h

/-- Witness for C5 at the byte sequences `[104, 105, 33]` and `[]`. -/
theorem C5_base64_round_trip_witness :
    (∀ b ∈ ([104, 105, 33] : List Nat), b < 256) ∧
    base64_decode_bytes (base64_encode_bytes [104, 105, 33]) = .ok [104, 105, 33] ∧
    base64_decode_bytes (base64_encode_bytes []) = .ok [] :=
  ⟨by decide, C5_base64_round_trip [104, 105, 33] (by decide),
    C5_base64_round_trip [] (by decide)⟩

end Aspen
